import Mathlib

/-!
Verification of the JSON defensive-parsing pipeline and orchestration logic of
the NiceTry repository (src/app.py, src/nicegui_app.py).

The Python source is shallowly embedded: strings are modelled as `List Char`
(wrapped in `String` at API boundaries), the generation backend is a test
double `Backend := Nat → BackendCall → Except String (Option String)` mapping
the call index and the issued call to either a raised exception (`.error`) or
a response whose text payload may be absent (`Option String`), and Python
`json.loads` is modelled by an executable strict JSON parser (`json_loads`).
-/

namespace NiceTry

/-- The backtick character (written via its code point). -/
def backtick : Char := '\x60'

/-- Characters stripped by Python `str.strip()` (ASCII whitespace). -/
def pyIsSpace (c : Char) : Bool :=
  [' ', '\t', '\n', '\r', '\x0b', '\x0c'].contains c

/-- Drop characters satisfying `p` from the end of a list. -/
def dropEndWhile (p : Char → Bool) (l : List Char) : List Char :=
  (l.reverse.dropWhile p).reverse

/-- Strip characters satisfying `p` from both ends of a list (the behavior of
Python `str.strip`). -/
def stripBoth (p : Char → Bool) (l : List Char) : List Char :=
  dropEndWhile p (l.dropWhile p)

/-- Python `str.strip()` on a list of characters. -/
def pyStrip (l : List Char) : List Char :=
  stripBoth pyIsSpace l

/-- Python `str.strip(c)` for a single strip character `c`. -/
def pyStripChar (c : Char) (l : List Char) : List Char :=
  stripBoth (fun d => d == c) l

/-- Python `str.strip()` on `String`. -/
def pyStripS (s : String) : String := ⟨pyStrip s.data⟩

/-- Python `t.startswith("```")` for the triple-backtick code fence. -/
def startsWithFence (l : List Char) : Bool :=
  match l with
  | a :: b :: c :: _ => a == backtick && b == backtick && c == backtick
  | _ => false

/-- Python `t.lower().startswith("json")` (ASCII case-insensitive `json` tag). -/
def startsWithJsonTag (l : List Char) : Bool :=
  match l with
  | a :: b :: c :: d :: _ =>
      a.toLower == 'j' && b.toLower == 's' && c.toLower == 'o' && d.toLower == 'n'
  | _ => false

/-- Body of `_strip_code_fences` from src/app.py on a character list:
`t = (text or "").strip()`; if `t` starts with a triple backtick, strip all
leading/trailing backticks and whitespace; if the remainder starts with the
case-insensitive tag `json`, drop 4 characters and re-strip. -/
def stripCodeFencesL (l : List Char) : List Char :=
  if startsWithFence (pyStrip l) then
    if startsWithJsonTag (pyStrip (pyStripChar backtick (pyStrip l))) then
      pyStrip ((pyStrip (pyStripChar backtick (pyStrip l))).drop 4)
    else pyStrip (pyStripChar backtick (pyStrip l))
  else pyStrip l

/-- Model of src/app.py `_strip_code_fences`: the argument models `resp.text`, whose
payload may be absent (`None`); `(text or "")` maps an absent payload to `""`. -/
def strip_code_fences (text : Option String) : String :=
  ⟨stripCodeFencesL (text.getD "").data⟩

/-- Inline fence stripping in src/nicegui_app.py `call_ai`:
`text = (resp.text or "").strip()`; if it starts with a triple backtick,
`text = text.strip("`")` (no re-strip of whitespace); if the remainder starts
with the case-insensitive tag `json`, `text = text[4:].strip()`. -/
def ngStripFencesL (l : List Char) : List Char :=
  if startsWithFence (pyStrip l) then
    if startsWithJsonTag (pyStripChar backtick (pyStrip l)) then
      pyStrip ((pyStripChar backtick (pyStrip l)).drop 4)
    else pyStripChar backtick (pyStrip l)
  else pyStrip l

/-- The nicegui_app.py normalization applied to the (possibly absent) response
text before `json.loads`. -/
def ng_normalize (text : Option String) : String :=
  ⟨ngStripFencesL (text.getD "").data⟩

example : strip_code_fences (some "```json\n\x7b\"a\":1\x7d\n```") = "\x7b\"a\":1\x7d" := by decide
example : strip_code_fences (some "  hi  ") = "hi" := by decide
example : strip_code_fences none = "" := by decide
example : ng_normalize (some "``` x") = " x" := by decide
example : strip_code_fences (some "``` x") = "x" := by decide
example : strip_code_fences (some "``` ```abc") = "```abc" := by decide
example : strip_code_fences (some "```abc") = "abc" := by decide

/-! ## A strict JSON parser modelling Python `json.loads`

`json.loads` is Python standard-library code (an external collaborator of the
repository, like the generation backend); the executable parser below models
its strict document grammar: a single JSON value, optionally surrounded by
JSON whitespace, with nothing after it.  Numbers are represented exactly as decimals: the
value of `Json.num m e` is `m * 10 ^ e`. -/

/-- JSON values as produced by the parse of a backend response. -/
inductive Json where
  | null : Json
  | bool (b : Bool) : Json
  | num (mantissa : Int) (exp10 : Int) : Json
  | str (s : String) : Json
  | arr (elements : List Json) : Json
  | obj (members : List (String × Json)) : Json
deriving Repr

/-- JSON document whitespace. -/
def jsonWsChar (c : Char) : Bool :=
  [' ', '\t', '\n', '\r'].contains c

/-- Skip JSON whitespace. -/
def skipWs (l : List Char) : List Char := l.dropWhile jsonWsChar

/-- Value of a hexadecimal digit. -/
def hexVal (c : Char) : Option Nat :=
  let n := c.toNat
  if 48 ≤ n ∧ n ≤ 57 then some (n - 48)
  else if 97 ≤ n ∧ n ≤ 102 then some (n - 87)
  else if 65 ≤ n ∧ n ≤ 70 then some (n - 55)
  else none

/-- Single-character JSON string escapes. -/
def escChar : Char → Option Char
  | '"' => some '"'
  | '\\' => some '\\'
  | '/' => some '/'
  | 'b' => some (Char.ofNat 8)
  | 'f' => some (Char.ofNat 12)
  | 'n' => some (Char.ofNat 10)
  | 'r' => some (Char.ofNat 13)
  | 't' => some (Char.ofNat 9)
  | _ => none

/-- Parse the body of a JSON string (after the opening quote); returns the
decoded string and the rest of the input.  The fuel argument only bounds the
recursion; each step consumes at least one character, so `l.length + 1` fuel
always suffices. -/
def parseStringBody : Nat → List Char → List Char → Except String (String × List Char)
  | 0, _, _ => .error "Unterminated string"
  | _ + 1, _, [] => .error "Unterminated string"
  | fuel + 1, acc, c :: rest =>
    if c == '"' then .ok (⟨acc.reverse⟩, rest)
    else if c == '\\' then
      match rest with
      | [] => .error "Unterminated string"
      | e :: rest2 =>
        if e == 'u' then
          match rest2 with
          | a :: b :: c2 :: d :: rest3 =>
            match hexVal a, hexVal b, hexVal c2, hexVal d with
            | some x1, some x2, some x3, some x4 =>
              parseStringBody fuel (Char.ofNat (((x1 * 16 + x2) * 16 + x3) * 16 + x4) :: acc) rest3
            | _, _, _, _ => .error "Invalid hex escape"
          | _ => .error "Invalid hex escape"
        else
          match escChar e with
          | some ec => parseStringBody fuel (ec :: acc) rest2
          | none => .error "Invalid escape"
    else if c.toNat < 32 then .error "Invalid control character"
    else parseStringBody fuel (c :: acc) rest

/-- Numeric value of a list of decimal digits. -/
def natOfDigits (ds : List Char) : Nat :=
  ds.foldl (fun n c => n * 10 + (c.toNat - '0'.toNat)) 0

/-- Parse a JSON number (grammar `-? (0 | [1-9][0-9]*) frac? exp?`); the input
starts at the sign or first digit.  Returns the exact decimal value as a
mantissa/exponent pair. -/
def parseNumber (l : List Char) : Except String (Json × List Char) :=
  let (neg, l1) :=
    match l with
    | c :: rest => if c == '-' then (true, rest) else (false, l)
    | [] => (false, [])
  match l1 with
  | [] => .error "Expecting value"
  | c :: rest =>
    if ¬ c.isDigit then .error "Expecting value"
    else
      let (ip, l2) :=
        if c == '0' then ([c], rest)
        else (c :: rest.takeWhile Char.isDigit, rest.dropWhile Char.isDigit)
      let (fd, l3) :=
        match l2 with
        | '.' :: r =>
          let ds := r.takeWhile Char.isDigit
          if ds = [] then (([] : List Char), l2) else (ds, r.dropWhile Char.isDigit)
        | _ => ([], l2)
      let (ex, l4) :=
        match l3 with
        | c2 :: r =>
          if c2 == 'e' || c2 == 'E' then
            match r with
            | s :: r2 =>
              if s == '+' || s == '-' then
                let ds := r2.takeWhile Char.isDigit
                if ds = [] then ((0 : Int), l3)
                else ((if s == '-' then -(natOfDigits ds : Int) else (natOfDigits ds : Int)),
                      r2.dropWhile Char.isDigit)
              else
                let ds := r.takeWhile Char.isDigit
                if ds = [] then ((0 : Int), l3)
                else ((natOfDigits ds : Int), r.dropWhile Char.isDigit)
            | [] => ((0 : Int), l3)
          else ((0 : Int), l3)
        | [] => ((0 : Int), l3)
      let mantissa : Nat := natOfDigits ip * 10 ^ fd.length + natOfDigits fd
      let m : Int := if neg then -(mantissa : Int) else (mantissa : Int)
      .ok (.num m (ex - fd.length), l4)

/-- Parser modes: a JSON value, an object body (after the opening brace),
the members of a non-empty object, an array body (after the opening bracket),
or the elements of a non-empty array.  The member/element modes carry the
items parsed so far. -/
inductive PMode where
  | val : PMode
  | objBody : PMode
  | members (acc : List (String × Json)) : PMode
  | arrBody : PMode
  | elems (acc : List Json) : PMode

/-- Recursive core of the JSON parser.  The fuel argument bounds the recursion
depth; `json_loads` supplies fuel proportional to the input length, which is
always sufficient because every recursive call either consumes input or
descends into a construct whose delimiters were consumed. -/
def parseF : Nat → PMode → List Char → Except String (Json × List Char)
  | 0, _, _ => .error "Nesting too deep"
  | fuel + 1, .val, l =>
    match skipWs l with
    | [] => .error "Expecting value"
    | c :: rest =>
      if c == '\x7b' then parseF fuel .objBody rest
      else if c == '[' then parseF fuel .arrBody rest
      else if c == '"' then
        match parseStringBody (rest.length + 1) [] rest with
        | .ok (s, r) => .ok (.str s, r)
        | .error e => .error e
      else if c == 't' then
        match rest with
        | 'r' :: 'u' :: 'e' :: r => .ok (.bool true, r)
        | _ => .error "Expecting value"
      else if c == 'f' then
        match rest with
        | 'a' :: 'l' :: 's' :: 'e' :: r => .ok (.bool false, r)
        | _ => .error "Expecting value"
      else if c == 'n' then
        match rest with
        | 'u' :: 'l' :: 'l' :: r => .ok (.null, r)
        | _ => .error "Expecting value"
      else if c == '-' || c.isDigit then parseNumber (c :: rest)
      else .error "Expecting value"
  | fuel + 1, .objBody, l =>
    match skipWs l with
    | '\x7d' :: r => .ok (.obj [], r)
    | l2 => parseF fuel (.members []) l2
  | fuel + 1, .members acc, l =>
    match skipWs l with
    | '"' :: r =>
      match parseStringBody (r.length + 1) [] r with
      | .error e => .error e
      | .ok (key, r2) =>
        match skipWs r2 with
        | ':' :: r3 =>
          match parseF fuel .val r3 with
          | .error e => .error e
          | .ok (v, r4) =>
            match skipWs r4 with
            | ',' :: r5 => parseF fuel (.members (acc ++ [(key, v)])) r5
            | '\x7d' :: r5 => .ok (.obj (acc ++ [(key, v)]), r5)
            | _ => .error "Expecting delimiter"
        | _ => .error "Expecting colon delimiter"
    | _ => .error "Expecting property name enclosed in double quotes"
  | fuel + 1, .arrBody, l =>
    match skipWs l with
    | ']' :: r => .ok (.arr [], r)
    | l2 => parseF fuel (.elems []) l2
  | fuel + 1, .elems acc, l =>
    match parseF fuel .val l with
    | .error e => .error e
    | .ok (v, r) =>
      match skipWs r with
      | ',' :: r2 => parseF fuel (.elems (acc ++ [v])) r2
      | ']' :: r2 => .ok (.arr (acc ++ [v]), r2)
      | _ => .error "Expecting delimiter"

/-- Model of Python `json.loads`: strict parse of a complete JSON document. -/
def json_loads (s : String) : Except String Json :=
  match parseF (4 * (s.data.length + 1)) .val s.data with
  | .error e => .error e
  | .ok (v, rest) => if skipWs rest = [] then .ok v else .error "Extra data"

example : json_loads "\x7b\"a\":1\x7d" = .ok (.obj [("a", .num 1 0)]) := rfl
example : json_loads " [1, 2.5, -3e2, \"x\", true, null] " =
    .ok (.arr [.num 1 0, .num 25 (-1), .num (-3) 2, .str "x", .bool true, .null]) := rfl
example : json_loads "\x7b\"a\": [1, 2" = .error "Expecting delimiter" := rfl
example : json_loads "" = .error "Expecting value" := rfl
example : json_loads "not json at all" = .error "Expecting value" := rfl
example : json_loads "\x7b\x7d" = .ok (.obj []) := rfl
example : json_loads "\x7b\x7d x" = .error "Extra data" := rfl

/-! ## The generation backend interface and the two `call_ai` orchestrators -/

/-- Fixed list of maintenance systems (SYSTEMS in src/app.py). -/
def SYSTEMS : List String :=
  ["Motor y admisión", "Refrigeración", "Combustible", "Transmisión", "Hidráulico",
   "Frenos", "Dirección", "Eje delantero", "PTO/TDF", "Electricidad", "Cabina",
   "Engrase general", "Neumáticos"]

/-- Comma-separated quoted system names interpolated into the prompt
(`systems_txt` in src/app.py `build_prompt`). -/
def systemsTxt : String :=
  String.intercalate ", " (SYSTEMS.map (fun s => "\"" ++ s ++ "\""))

/-- Model of src/app.py `build_prompt`: the fixed Spanish f-string template with
`marca`, `modelo`, `horas`, `objetivo` and the system list interpolated, then
`.strip()` applied. -/
def build_prompt (marca modelo : String) (horas : Int) (objetivo : String) : String :=
  pyStripS ("\n" ++ "Eres un jefe de taller especialista en tractores agrícolas.\nTu objetivo: " ++
    objetivo ++
    "\n\nDatos:\n- Marca: " ++
    marca ++
    "\n- Modelo: " ++
    modelo ++
    "\n- Horas actuales: " ++
    toString horas ++
    "\n\nDevuelve SOLO JSON válido (sin texto adicional, sin markdown), con esta estructura exacta:\n\n\x7b\n  \"resumen\": \x7b\n    \"marca\": \"" ++
    marca ++
    "\",\n    \"modelo\": \"" ++
    modelo ++
    "\",\n    \"horas\": " ++
    toString horas ++
    ",\n    \"intervalo_mas_cercano_h\": 0,\n    \"razon_intervalo\": \"...\",\n    \"confianza\": \"Alta | Media | Baja\"\n  \x7d,\n  \"puntos_mantenimiento\": [\n    \x7b\n      \"sistema\": \"Motor y admisión\",\n      \"items\": [\n        \x7b\n          \"tarea\": \"...\",\n          \"tipo\": \"Sustitución | Inspección | Limpieza | Ajuste | Engrase\",\n          \"prioridad\": \"Alta | Media | Baja\",\n          \"frecuencia_h\": 0,\n          \"tiempo_estimado_min\": 0,\n          \"materiales\": [\"...\"],\n          \"notas\": \"...\"\n        \x7d\n      ]\n    \x7d\n  ],\n  \"ref_partes\": [\n    \x7b\n      \"pieza\": \"Filtro aceite motor\",\n      \"referencia\": \"...\",\n      \"motivo\": \"...\",\n      \"confianza\": \"Alta | Media | Baja\"\n    \x7d\n  ],\n  \"fuentes\": [\n    \x7b\n      \"titulo\": \"...\",\n      \"url\": \"...\",\n      \"nota\": \"si no tienes fuente real, deja url vacío y explica\"\n    \x7d\n  ],\n  \"consumibles_recomendados\": [\n    \x7b\n      \"nombre\": \"Aceite motor 15W-40\",\n      \"cantidad_aprox\": \"...\"\n    \x7d\n  ],\n  \"chequeos_criticos\": [\n    \x7b\n      \"alerta\": \"...\",\n      \"que_mirar\": [\"...\"],\n      \"accion\": \"...\"\n    \x7d\n  ],\n  \"suposiciones\": [\"...\"]\n\x7d\n\nReglas:\n- Sistemas permitidos (usa EXACTAMENTE uno de estos): [" ++
    systemsTxt ++
    "]\n- Si no sabes intervalos exactos del modelo, usa intervalos típicos (250/500/1000/1500/2000h) y explica en \"suposiciones\".\n- Evita números ultra específicos si no estás seguro; usa \"aprox\" y deja claro en notas/suposiciones.\n- \"ref_partes\": si no puedes asegurar referencias, pon \"confianza\":\"Baja\" y explica el motivo; NO inventes con confianza alta.\n- \"fuentes\": si no tienes URLs reales, deja \"url\":\"\" y explica en \"nota\" que no hay grounding.\n")

/-- Model of src/nicegui_app.py `build_prompt` (simplified template, no final
`.strip()`). -/
def build_prompt_ng (marca modelo : String) (horas : Int) : String :=
  "\n" ++ "Eres un jefe de taller especialista en tractores agrícolas.\n\nQuiero que calcules el mantenimiento que corresponde con:\n- Marca: " ++
    marca ++
    "\n- Modelo: " ++
    modelo ++
    "\n- Horas actuales: " ++
    toString horas ++
    "\n\nEntregable (en ESPAÑOL) y SOLO en JSON válido (sin texto adicional), con esta estructura:\n\n\x7b\n  \"resumen\": \x7b\n    \"marca\": \"...\",\n    \"modelo\": \"...\",\n    \"horas\": 0,\n    \"intervalo_mas_cercano_h\": 0,\n    \"razon_intervalo\": \"...\"\n  \x7d,\n  \"puntos_mantenimiento\": [\n    \x7b\n      \"sistema\": \"Motor y admisión\",\n      \"items\": [\n        \x7b\n          \"tarea\": \"Cambiar aceite motor\",\n          \"tipo\": \"Sustitución | Inspección | Limpieza | Ajuste | Engrase\",\n          \"prioridad\": \"Alta | Media | Baja\",\n          \"frecuencia_h\": 0,\n          \"tiempo_estimado_min\": 0,\n          \"materiales\": [\"...\"],\n          \"notas\": \"...\"\n        \x7d\n      ]\n    \x7d\n  ]\n\x7d\n"

/-- Generation preset as passed to src/app.py `call_ai` (a dict read with
`preset.get(key, default)`; absent keys fall back to defaults). -/
structure Preset where
  top_p : Option Rat := none
  top_k : Option Int := none
  max_output_tokens : Option Int := none

/-- Generation configuration bag (the `config=` dict of
`client.models.generate_content`); each recognized option may be present or
absent. -/
structure GenConfig where
  response_mime_type : Option String := none
  temperature : Option Rat := none
  top_p : Option Rat := none
  top_k : Option Int := none
  max_output_tokens : Option Int := none
  seed : Option Int := none

/-- One outbound call to `client.models.generate_content`: either with a
configuration dict or with only model and prompt. -/
inductive BackendCall where
  | withConfig (model : String) (contents : String) (config : GenConfig)
  | plain (model : String) (contents : String)

/-- Test double for the generation backend: maps the index of the outbound
call (0 for the first, 1 for the second, ...) and the issued call to either a
raised exception (`.error msg`) or a response whose `.text` payload may be
absent. -/
def Backend : Type := Nat → BackendCall → Except String (Option String)

/-- Terminal outcomes of src/app.py `call_ai`: the `ValueError` raised on a
failed `json.loads` (carrying the parser error and the attempted text), or an
exception propagating from the fallback backend call. -/
inductive CallAiError where
  | parse (err : String) (text : String)
  | backend (err : String)

/-- Message of the `ValueError` raised by src/app.py `call_ai` when
`json.loads` fails: it renders the underlying parser error and the attempted
response text verbatim. -/
def parse_error_message (err text : String) : String :=
  "No se pudo parsear JSON devuelto por IA. Error: " ++ err ++
    "\n\nRespuesta IA:\n" ++ text

/-- Final step of src/app.py `call_ai`: `json.loads(text)`, with a parse
failure converted into the `ValueError` carrying text and error. -/
def parse_response (text : String) : Except CallAiError Json :=
  match json_loads text with
  | .ok v => .ok v
  | .error e => .error (.parse e text)

/-- The configuration dict assembled by src/app.py `call_ai` (`cfg`). -/
def app_cfg (temperature : Rat) (seed : Int) (preset : Preset) : GenConfig :=
  { response_mime_type := some "application/json"
    temperature := some temperature
    top_p := some (preset.top_p.getD (9 / 10))
    top_k := some (preset.top_k.getD 40)
    max_output_tokens := some (preset.max_output_tokens.getD 2048)
    seed := some seed }

/-- The primary generation call issued by src/app.py `call_ai`. -/
def app_primary_call (marca modelo : String) (horas : Int) (model_name : String)
    (temperature : Rat) (seed : Int) (preset : Preset) (objetivo : String) : BackendCall :=
  .withConfig model_name (build_prompt marca modelo horas objetivo)
    (app_cfg temperature seed preset)

/-- The conservative fallback call of src/app.py `call_ai`: only model and
prompt, no configuration. -/
def app_fallback_call (marca modelo : String) (horas : Int) (model_name : String)
    (objetivo : String) : BackendCall :=
  .plain model_name (build_prompt marca modelo horas objetivo)

/-- Model of src/app.py `call_ai`: primary configured call; on a backend
exception, one unconfigured fallback call; fence-strip the response text and
strictly parse it, raising a `ValueError` (with text and parser error) on
failure.  Returns the list of outbound backend calls actually made together
with the result. -/
def call_ai (backend : Backend) (marca modelo : String) (horas : Int)
    (model_name : String) (temperature : Rat) (seed : Int) (preset : Preset)
    (objetivo : String) : List BackendCall × Except CallAiError Json :=
  let c0 := app_primary_call marca modelo horas model_name temperature seed preset objetivo
  match backend 0 c0 with
  | .ok t => ([c0], parse_response (strip_code_fences t))
  | .error _ =>
    let c1 := app_fallback_call marca modelo horas model_name objetivo
    match backend 1 c1 with
    | .ok t => ([c0, c1], parse_response (strip_code_fences t))
    | .error e => ([c0, c1], .error (.backend e))

/-- The configuration dict of src/nicegui_app.py `call_ai`. -/
def ng_cfg : GenConfig := { response_mime_type := some "application/json" }

/-- The primary generation call issued by src/nicegui_app.py `call_ai`. -/
def ng_primary_call (marca modelo : String) (horas : Int) (model_name : String) : BackendCall :=
  .withConfig model_name (build_prompt_ng marca modelo horas) ng_cfg

/-- The fallback call of src/nicegui_app.py `call_ai`. -/
def ng_fallback_call (marca modelo : String) (horas : Int) (model_name : String) : BackendCall :=
  .plain model_name (build_prompt_ng marca modelo horas)

/-- Model of src/nicegui_app.py `call_ai`: primary configured call; on a
backend exception, one unconfigured fallback call; inline fence stripping and
`json.loads`, whose exception propagates unwrapped (any error is caught only
by the click handler). -/
def call_ai_ng (backend : Backend) (marca modelo : String) (horas : Int)
    (model_name : String) : List BackendCall × Except String Json :=
  let c0 := ng_primary_call marca modelo horas model_name
  match backend 0 c0 with
  | .ok t => ([c0], json_loads (ng_normalize t))
  | .error _ =>
    let c1 := ng_fallback_call marca modelo horas model_name
    match backend 1 c1 with
    | .ok t => ([c0, c1], json_loads (ng_normalize t))
    | .error e => ([c0, c1], .error e)

/-! ## The Streamlit submit handler and session history -/

/-- One record of `st.session_state.history` (the `inputs` dict flattened
together with the timestamp and the generated data; the timestamp
`datetime.now().isoformat()` is abstracted as a `Nat` clock value). -/
structure HistoryEntry where
  ts : Nat
  marca : String
  modelo : String
  horas : Int
  model : String
  temperature : Rat
  seed : Int
  preset : String
  data : Json

/-- The record inserted at the front of the history after a successful
generation (src/app.py lines 410-425). -/
def mkHistoryEntry (now : Nat) (marca modelo : String) (horas : Int)
    (model_name : String) (temperature : Rat) (seed : Int) (preset_name : String)
    (data : Json) : HistoryEntry :=
  { ts := now, marca := pyStripS marca, modelo := pyStripS modelo, horas := horas,
    model := pyStripS model_name, temperature := temperature, seed := seed,
    preset := preset_name, data := data }

/-- Outcome of the Streamlit submit handler: the validation error shown by
`st.error` before any backend work, an error shown for an exception escaping
`call_ai`, or a successful generation. -/
inductive SubmitOutcome where
  | validationError (msg : String)
  | errorShown (msg : String)
  | success (data : Json)

/-- Python `str(e)` for the exceptions escaping `call_ai`. -/
def render_error : CallAiError → String
  | .parse e text => parse_error_message e text
  | .backend m => m

/-- The validation message of src/app.py line 376. -/
def validation_message : String :=
  "Faltan datos: **marca** y **modelo** son obligatorios."

/-- Number of history entries rendered by the history tab
(`st.session_state.history[:20]`, src/app.py line 531). -/
def display_history (h : List HistoryEntry) : List HistoryEntry :=
  h.take 20

/-- Model of the Streamlit submit handler (src/app.py lines 374-425): validate
brand and model (no backend call on failure), run `call_ai` on the stripped
inputs, and on success insert the new record at the front of the history.
Returns the outbound backend calls made, the outcome, and the new history. -/
def submit_run (backend : Backend) (marca modelo : String) (horas : Int)
    (model_name : String) (temperature : Rat) (seed : Int) (preset : Preset)
    (preset_name : String) (objetivo : String) (history : List HistoryEntry)
    (now : Nat) : List BackendCall × SubmitOutcome × List HistoryEntry :=
  if pyStripS marca = "" ∨ pyStripS modelo = "" then
    ([], .validationError validation_message, history)
  else
    match call_ai backend (pyStripS marca) (pyStripS modelo) horas
        (pyStripS model_name) temperature seed preset (pyStripS objetivo) with
    | (tr, .ok data) =>
      (tr, .success data,
        mkHistoryEntry now marca modelo horas model_name temperature seed preset_name data
          :: history)
    | (tr, .error e) => (tr, .errorShown (render_error e), history)

/-! ## The NiceGUI click handler -/

/-- Python `value or default` on an optional string widget value (`None` and
the empty string are both falsy). -/
def pyOr (o : Option String) (d : String) : String :=
  match o with
  | none => d
  | some s => if s = "" then d else s

/-- Final `out.value` classes of the NiceGUI click handler: the validation
error string, an error string for an exception escaping `call_ai`, or the
generated data (rendered as indented JSON by the UI). -/
inductive ClickOutcome where
  | error (msg : String)
  | ok (data : Json)

/-- Default model identifier (DEFAULT_MODEL in src/nicegui_app.py with no
environment override). -/
def DEFAULT_MODEL : String := "gemini-2.0-flash"

/-- Model of the NiceGUI `on_click` handler (src/nicegui_app.py lines
140-156): read and strip the widget values, validate brand and model (no
backend call on failure), then run `call_ai` and render any exception as an
error string. -/
def on_click (backend : Backend) (marca_v modelo_v model_v : Option String)
    (horas_v : Option Int) : List BackendCall × ClickOutcome :=
  let marca := pyStripS (pyOr marca_v "")
  let modelo := pyStripS (pyOr modelo_v "")
  let horas := horas_v.getD 0
  let model_name := pyStripS (pyOr model_v DEFAULT_MODEL)
  if marca = "" ∨ modelo = "" then
    ([], .error "ERROR: marca y modelo son obligatorios")
  else
    match call_ai_ng backend marca modelo horas model_name with
    | (tr, .ok data) => (tr, .ok data)
    | (tr, .error e) => (tr, .error ("ERROR:\n" ++ e))

/-! ## JsonObjectExtractor (present only in the spec) -/

/-- Index of the last closing brace of `l`, if any. -/
def lastCloseIdx (l : List Char) : Option Nat :=
  (l.reverse.findIdx? (fun c => c == '\x7d')).map (fun k => l.length - 1 - k)

/-- Modelled from the spec: neither src/app.py nor src/nicegui_app.py contains
the JsonObjectExtractor component of spec section 4.2 (both files parse the
normalized text directly), so it is modelled from the spec's words: locate the
index of the first opening brace and the index of the last closing brace; if
both exist and the closing index follows the opening index, return the
inclusive substring; otherwise return the input unchanged. -/
def jsonObjectExtractorL (l : List Char) : List Char :=
  match l.findIdx? (fun c => c == '\x7b'), lastCloseIdx l with
  | some i, some j => if i < j then (l.drop i).take (j - i + 1) else l
  | some _, none => l
  | none, _ => l

/-- String wrapper of `jsonObjectExtractorL`. -/
def jsonObjectExtractor (s : String) : String := ⟨jsonObjectExtractorL s.data⟩

example : jsonObjectExtractor "blah \x7b\"a\":1\x7d blah" = "\x7b\"a\":1\x7d" := by decide
example : jsonObjectExtractor "no braces" = "no braces" := by decide
example : jsonObjectExtractor "\x7d \x7b" = "\x7d \x7b" := by decide

/-! ## Backend test doubles used by the concrete scenarios -/

/-- Backend double: every call returns valid JSON. -/
def bkValid : Backend := fun _ _ => .ok (some "\x7b\"a\": 1\x7d")

/-- Backend double: the first call returns truncated JSON (missing closing
brackets), the second call returns valid JSON. -/
def bkTruncThenValid : Backend := fun i _ =>
  if i = 0 then .ok (some "\x7b\"a\": [1, 2") else .ok (some "\x7b\"a\": [1, 2]\x7d")

/-- Backend double: every call returns text that is not valid JSON. -/
def bkAlwaysInvalid : Backend := fun _ _ => .ok (some "not json at all")

/-- Backend double: raises on the configured call, accepts the plain call. -/
def bkRejectThenValid : Backend := fun i _ =>
  if i = 0 then .error "config rejected" else .ok (some "\x7b\"a\": 1\x7d")

/-! ## Helper lemmas about the stripping primitives -/

theorem dropWhile_idem (p : Char → Bool) (l : List Char) :
    (l.dropWhile p).dropWhile p = l.dropWhile p := by
  induction l with
  | nil => rfl
  | cons a t ih =>
    cases h : p a <;> simp [List.dropWhile_cons, h, ih]

theorem head_dropWhile_false (p : Char → Bool) (l : List Char) :
    ∀ a, (l.dropWhile p).head? = some a → p a = false := by
  induction l with
  | nil => intro a h; simp at h
  | cons b t ih =>
    intro a h
    cases hb : p b
    · rw [List.dropWhile_cons, hb] at h
      simp at h
      rw [← h]
      exact hb
    · rw [List.dropWhile_cons, hb] at h
      exact ih a (by simpa using h)

theorem dropWhile_eq_self (p : Char → Bool) (l : List Char)
    (h : ∀ a, l.head? = some a → p a = false) : l.dropWhile p = l := by
  cases l with
  | nil => rfl
  | cons a t => simp [List.dropWhile_cons, h a rfl]

theorem dropWhile_makes_suffix (p : Char → Bool) (l : List Char) :
    ∃ t, t ++ l.dropWhile p = l := by
  induction l with
  | nil => exact ⟨[], rfl⟩
  | cons a t ih =>
    cases h : p a
    · exact ⟨[], by simp [List.dropWhile_cons, h]⟩
    · obtain ⟨w, hw⟩ := ih
      exact ⟨a :: w, by simp [List.dropWhile_cons, h, hw]⟩

theorem dropEndWhile_makes_prefix (p : Char → Bool) (l : List Char) :
    ∃ r, dropEndWhile p l ++ r = l := by
  obtain ⟨t, ht⟩ := dropWhile_makes_suffix p l.reverse
  refine ⟨t.reverse, ?_⟩
  have h2 := congrArg List.reverse ht
  simpa [dropEndWhile, List.reverse_append] using h2

theorem stripBoth_idem (p : Char → Bool) (l : List Char) :
    stripBoth p (stripBoth p l) = stripBoth p l := by
  have hA : (stripBoth p l).dropWhile p = stripBoth p l := by
    apply dropWhile_eq_self
    intro a ha
    obtain ⟨r, hr⟩ := dropEndWhile_makes_prefix p (l.dropWhile p)
    have hs : stripBoth p l = dropEndWhile p (l.dropWhile p) := rfl
    rw [hs] at ha
    cases hd : dropEndWhile p (l.dropWhile p) with
    | nil => rw [hd] at ha; simp at ha
    | cons b s =>
      rw [hd] at ha
      simp at ha
      rw [hd] at hr
      apply head_dropWhile_false p l a
      rw [← hr, ← ha]
      rfl
  have hB : dropEndWhile p (stripBoth p l) = stripBoth p l := by
    have hrev : (stripBoth p l).reverse = (l.dropWhile p).reverse.dropWhile p := by
      simp [stripBoth, dropEndWhile]
    unfold dropEndWhile
    rw [hrev, dropWhile_idem, ← hrev]
    simp
  show dropEndWhile p ((stripBoth p l).dropWhile p) = stripBoth p l
  rw [hA, hB]

theorem pyStrip_idem (l : List Char) : pyStrip (pyStrip l) = pyStrip l :=
  stripBoth_idem _ _

/-- Every output of the app.py fence stripper is whitespace-stripped. -/
theorem stripCodeFencesL_stripped (l : List Char) :
    pyStrip (stripCodeFencesL l) = stripCodeFencesL l := by
  unfold stripCodeFencesL
  by_cases h1 : startsWithFence (pyStrip l) = true
  · rw [if_pos h1]
    by_cases h2 : startsWithJsonTag (pyStrip (pyStripChar backtick (pyStrip l))) = true
    · rw [if_pos h2]
      exact stripBoth_idem _ _
    · rw [if_neg h2]
      exact stripBoth_idem _ _
  · rw [if_neg h1]
    exact stripBoth_idem _ _

/-! ## Claim C6: idempotence of the fence stripper -/

/-- Auxiliary: the app.py fence stripper is the identity on an input that is
already whitespace-stripped and does not begin with a code fence. -/
theorem stripCodeFencesL_fixed (r : List Char) (hstripped : pyStrip r = r)
    (h : startsWithFence r = false) : stripCodeFencesL r = r := by
  simp [stripCodeFencesL, hstripped, h]

/-- Claim C6, counterexample: `_strip_code_fences` is not idempotent.  On the
input "``` ```abc" one application yields "```abc" (the trailing-end strip of
backticks does not re-examine the front after whitespace was removed), while a
second application yields "abc". -/
theorem c6_counterexample :
    strip_code_fences (some (strip_code_fences (some "``` ```abc"))) ≠
      strip_code_fences (some "``` ```abc") := by decide

/-- Claim C6, amended: `_strip_code_fences` is idempotent on every input whose
once-stripped result does not itself begin with a triple-backtick fence (in
particular on already-clean JSON text). -/
theorem c6_amended (t : Option String)
    (h : startsWithFence (strip_code_fences t).data = false) :
    strip_code_fences (some (strip_code_fences t)) = strip_code_fences t := by
  have key : stripCodeFencesL (strip_code_fences t).data = (strip_code_fences t).data :=
    stripCodeFencesL_fixed _ (stripCodeFencesL_stripped ((t.getD "").data)) h
  show String.mk (stripCodeFencesL (strip_code_fences t).data) = strip_code_fences t
  rw [key]

/-- Witness for C6 (amended) at the already-clean input "abc". -/
theorem c6_amended_witness :
    strip_code_fences (some (strip_code_fences (some "abc"))) = strip_code_fences (some "abc") :=
  c6_amended (some "abc") (by decide)

/-! ## Claim C7: JsonObjectExtractor (spec-modelled) -/

/-- Auxiliary: `findIdx?` on a list split at its first satisfying element
returns the length of the non-satisfying prefix (generalized over the start
index accumulator of the core definition). -/
theorem findIdx?_go_split (p : Char → Bool) (c₀ : Char) (rest : List Char)
    (hc : p c₀ = true) :
    ∀ (pre : List Char), (∀ c ∈ pre, p c = false) →
      ∀ i, List.findIdx? p (pre ++ c₀ :: rest) i = some (i + pre.length) := by
  intro pre
  induction pre with
  | nil =>
    intro _ i
    simp [List.findIdx?, hc]
  | cons a t ih =>
    intro hpre i
    have ha : p a = false := hpre a (by simp)
    rw [List.cons_append]
    rw [show List.findIdx? p (a :: (t ++ c₀ :: rest)) i
        = if p a then some i else List.findIdx? p (t ++ c₀ :: rest) (i + 1) from rfl]
    rw [ha]
    simp only [Bool.false_eq_true, if_false]
    rw [ih (fun c hc' => hpre c (List.mem_cons_of_mem a hc')) (i + 1)]
    congr 1
    simp only [List.length_cons]
    omega

/-- Auxiliary: the index of the first satisfying element. -/
theorem findIdx?_split (p : Char → Bool) (pre : List Char) (c₀ : Char) (rest : List Char)
    (hpre : ∀ c ∈ pre, p c = false) (hc : p c₀ = true) :
    (pre ++ c₀ :: rest).findIdx? p = some pre.length := by
  simpa using findIdx?_go_split p c₀ rest hc pre hpre 0

/-- Auxiliary: the index of the last closing brace of a list split at it. -/
theorem lastCloseIdx_split (pre post : List Char)
    (hpost : ∀ c ∈ post, c ≠ '\x7d') :
    lastCloseIdx (pre ++ '\x7d' :: post) = some pre.length := by
  unfold lastCloseIdx
  have hrev : (pre ++ '\x7d' :: post).reverse = post.reverse ++ '\x7d' :: pre.reverse := by
    simp
  rw [hrev]
  rw [findIdx?_split _ post.reverse _ pre.reverse
    (fun c hcm => by simpa using hpost c (List.mem_reverse.mp hcm)) (by simp)]
  show some ((pre ++ '\x7d' :: post).length - 1 - post.reverse.length) = some pre.length
  congr 1
  simp only [List.length_reverse, List.length_append, List.length_cons]
  omega

/-- Claim C7: for every input that splits as a prefix with no opening brace,
the first opening brace, a middle, the last closing brace (no closing brace
after it), the extractor returns exactly the inclusive substring from that
first opening brace to that last closing brace; when both braces exist but the
last closing brace precedes the first opening brace the input is returned
unchanged; when the input has no opening brace or no closing brace it is
returned unchanged; and on the spec's example "blah \x7b\"a\":1\x7d blah" it
returns exactly "\x7b\"a\":1\x7d". -/
theorem c7_extractor :
    jsonObjectExtractor "blah \x7b\"a\":1\x7d blah" = "\x7b\"a\":1\x7d" ∧
    (∀ (s : String) (pre mid post : List Char),
      s.data = pre ++ '\x7b' :: (mid ++ '\x7d' :: post) →
      (∀ c ∈ pre, c ≠ '\x7b') → (∀ c ∈ post, c ≠ '\x7d') →
      jsonObjectExtractor s = ⟨'\x7b' :: (mid ++ ['\x7d'])⟩) ∧
    (∀ (s : String) (pre mid post : List Char),
      s.data = pre ++ '\x7d' :: (mid ++ '\x7b' :: post) →
      (∀ c ∈ pre, c ≠ '\x7b') → (∀ c ∈ mid, c ≠ '\x7b') →
      (∀ c ∈ mid, c ≠ '\x7d') → (∀ c ∈ post, c ≠ '\x7d') →
      jsonObjectExtractor s = s) ∧
    (∀ s : String, (∀ c ∈ s.data, c ≠ '\x7b') → jsonObjectExtractor s = s) ∧
    (∀ s : String, (∀ c ∈ s.data, c ≠ '\x7d') → jsonObjectExtractor s = s) := by
  refine ⟨by decide, ?_, ?_, ?_, ?_⟩
  · intro s pre mid post hsplit hpre hpost
    have hi : s.data.findIdx? (fun c => c == '\x7b') = some pre.length := by
      rw [hsplit]
      exact findIdx?_split _ pre _ _ (fun c hcm => by simpa using hpre c hcm) (by simp)
    have hj : lastCloseIdx s.data = some (pre.length + 1 + mid.length) := by
      rw [hsplit]
      have hshape : pre ++ '\x7b' :: (mid ++ '\x7d' :: post)
          = (pre ++ '\x7b' :: mid) ++ '\x7d' :: post := by
        simp
      rw [hshape, lastCloseIdx_split _ _ hpost]
      congr 1
      simp [List.length_append]
      omega
    have hm : jsonObjectExtractorL s.data
        = if pre.length < pre.length + 1 + mid.length then
            (s.data.drop pre.length).take (pre.length + 1 + mid.length - pre.length + 1)
          else s.data := by
      unfold jsonObjectExtractorL
      rw [hi, hj]
    show String.mk (jsonObjectExtractorL s.data) = _
    rw [hm, if_pos (by omega)]
    have harith : pre.length + 1 + mid.length - pre.length + 1 = mid.length + 1 + 1 := by
      omega
    rw [hsplit, List.drop_left, harith, List.take_succ_cons]
    have hshape2 : mid ++ '\x7d' :: post = (mid ++ ['\x7d']) ++ post := by
      simp
    have hlen2 : mid.length + 1 = (mid ++ ['\x7d']).length := by
      simp
    rw [hshape2, hlen2, List.take_left]
  · intro s pre mid post hsplit hpre hmidO hmidC hpost
    have hi : s.data.findIdx? (fun c => c == '\x7b') = some (pre.length + 1 + mid.length) := by
      rw [hsplit]
      have hshape : pre ++ '\x7d' :: (mid ++ '\x7b' :: post)
          = (pre ++ '\x7d' :: mid) ++ '\x7b' :: post := by
        simp
      rw [hshape]
      rw [findIdx?_split _ (pre ++ '\x7d' :: mid) _ post ?_ (by simp)]
      · congr 1
        simp [List.length_append]
        omega
      · intro c hcm
        rcases List.mem_append.mp hcm with hcm | hcm
        · simpa using hpre c hcm
        · rcases List.mem_cons.mp hcm with hcm | hcm
          · subst hcm; decide
          · simpa using hmidO c hcm
    have hj : lastCloseIdx s.data = some pre.length := by
      rw [hsplit]
      refine lastCloseIdx_split pre (mid ++ '\x7b' :: post) ?_
      intro c hcm
      rcases List.mem_append.mp hcm with hcm | hcm
      · exact hmidC c hcm
      · rcases List.mem_cons.mp hcm with hcm | hcm
        · subst hcm; decide
        · exact hpost c hcm
    have hm : jsonObjectExtractorL s.data
        = if pre.length + 1 + mid.length < pre.length then
            (s.data.drop (pre.length + 1 + mid.length)).take
              (pre.length - (pre.length + 1 + mid.length) + 1)
          else s.data := by
      unfold jsonObjectExtractorL
      rw [hi, hj]
    show String.mk (jsonObjectExtractorL s.data) = s
    rw [hm, if_neg (by omega)]
  · intro s h
    have hf : s.data.findIdx? (fun c => c == '\x7b') = none := by
      rw [List.findIdx?_eq_none_iff]
      intro x hx
      simpa using h x hx
    show String.mk (jsonObjectExtractorL s.data) = s
    simp [jsonObjectExtractorL, hf]
  · intro s h
    have hr : s.data.reverse.findIdx? (fun c => c == '\x7d') = none := by
      rw [List.findIdx?_eq_none_iff]
      intro x hx
      simpa using h x (List.mem_reverse.mp hx)
    show String.mk (jsonObjectExtractorL s.data) = s
    rcases hfb : s.data.findIdx? (fun c => c == '\x7b') with _ | i <;>
      simp [jsonObjectExtractorL, lastCloseIdx, hr, hfb]

/-- Witness for C7: the positive universal case exercised at a concrete
decomposition, and the close-before-open case at a concrete input. -/
theorem c7_extractor_witness :
    jsonObjectExtractor "xx \x7b1\x7d yy" = "\x7b1\x7d" ∧
    jsonObjectExtractor "a\x7d b\x7b c" = "a\x7d b\x7b c" :=
  ⟨c7_extractor.2.1 "xx \x7b1\x7d yy" "xx ".data "1".data " yy".data
      (by decide) (by decide) (by decide),
   c7_extractor.2.2.1 "a\x7d b\x7b c" "a".data " b".data " c".data
      (by decide) (by decide) (by decide) (by decide) (by decide)⟩

/-! ## Claim C8: totality of the normalizer on absent input -/

/-- Claim C8: the fence strippers of both revisions are total Lean functions
(they never throw), an absent backend text payload is normalized to the empty
string, and every input is processed exactly as its `(text or "")`
defaulting. -/
theorem c8_normalizer_total :
    strip_code_fences none = "" ∧ ng_normalize none = "" ∧
    (∀ t : Option String, strip_code_fences t = strip_code_fences (some (t.getD ""))) ∧
    (∀ t : Option String, ng_normalize t = ng_normalize (some (t.getD ""))) := by
  refine ⟨by decide, by decide, fun t => ?_, fun t => ?_⟩
  · cases t <;> rfl
  · cases t <;> rfl

/-! ## Claim C10: equivalence of the two fence strippers -/

/-- Claim C10, counterexample: the two revisions do not produce the same
normalized output for every input.  On "``` x" the app.py stripper yields "x"
while the nicegui_app.py stripper yields " x" (it omits the whitespace
re-strip after removing backticks). -/
theorem c10_counterexample :
    strip_code_fences (some "``` x") ≠ ng_normalize (some "``` x") := by decide

/-- Claim C10, amended: the two fence strippers agree on every input whose
trimmed text does not begin with a triple-backtick fence, and on every fenced
input for which removing the surrounding backticks leaves no surrounding
whitespace; in general the nicegui_app.py version may retain surrounding
whitespace that the app.py version strips. -/
theorem c10_amended (t : Option String)
    (h : startsWithFence (pyStrip (t.getD "").data) = false ∨
         pyStrip (pyStripChar backtick (pyStrip (t.getD "").data)) =
           pyStripChar backtick (pyStrip (t.getD "").data)) :
    strip_code_fences t = ng_normalize t := by
  show String.mk (stripCodeFencesL (t.getD "").data) = String.mk (ngStripFencesL (t.getD "").data)
  cases h with
  | inl h => simp [stripCodeFencesL, ngStripFencesL, h]
  | inr h =>
    unfold stripCodeFencesL ngStripFencesL
    rw [h]

/-- Witness for C10 (amended) at the unfenced input "abc". -/
theorem c10_amended_witness :
    strip_code_fences (some "abc") = ng_normalize (some "abc") :=
  c10_amended (some "abc") (Or.inl (by decide))

/-! ## Claim C3: validation precedes any backend call -/

/-- Auxiliary: stripping commutes with the `or ""` defaulting of a present
widget value. -/
theorem pyStripS_pyOr_some (s : String) : pyStripS (pyOr (some s) "") = pyStripS s := by
  by_cases hs : s = ""
  · subst hs; rfl
  · simp [pyOr, hs]

/-- Claim C3: whenever brand or model is empty or whitespace-only after
trimming, the Streamlit submit handler reports the validation error naming the
required fields and the NiceGUI click handler reports its validation error,
and in both cases the generation backend records zero calls. -/
theorem c3_validation (backend backend2 : Backend) (marca modelo : String) (horas : Int)
    (model_name : String) (temperature : Rat) (seed : Int) (preset : Preset)
    (preset_name objetivo : String) (history : List HistoryEntry) (now : Nat)
    (model_v : Option String) (horas_v : Option Int)
    (h : pyStripS marca = "" ∨ pyStripS modelo = "") :
    submit_run backend marca modelo horas model_name temperature seed preset preset_name
        objetivo history now
      = ([], .validationError validation_message, history) ∧
    on_click backend2 (some marca) (some modelo) model_v horas_v
      = ([], .error "ERROR: marca y modelo son obligatorios") := by
  constructor
  · unfold submit_run
    rw [if_pos h]
  · have hc : pyStripS (pyOr (some marca) "") = "" ∨ pyStripS (pyOr (some modelo) "") = "" := by
      rcases h with h | h
      · exact Or.inl ((pyStripS_pyOr_some marca).trans h)
      · exact Or.inr ((pyStripS_pyOr_some modelo).trans h)
    simp only [on_click]
    rw [if_pos hc]

/-- Witness for C3 at the whitespace-only brand "   ". -/
theorem c3_validation_witness :
    submit_run bkValid "   " "6120M" 250 "gemini-2.0-flash" 1 123456 ⟨none, none, none⟩
        "Equilibrado (taller)" "obj" [] 0
      = ([], .validationError validation_message, []) ∧
    on_click bkValid (some "   ") (some "6120M") none none
      = ([], .error "ERROR: marca y modelo son obligatorios") :=
  c3_validation bkValid bkValid "   " "6120M" 250 "gemini-2.0-flash" 1 123456
    ⟨none, none, none⟩ "Equilibrado (taller)" "obj" [] 0 none none (Or.inl (by decide))

/-! ## Claim C4: the unconfigured fallback call -/

/-- Auxiliary: the parse step of src/app.py `call_ai` never produces a
backend-exception outcome. -/
theorem parse_response_ne_backend (text m : String) :
    parse_response text ≠ .error (.backend m) := by
  unfold parse_response
  cases hj : json_loads text <;> simp

/-- Claim C4: in both revisions, if the configured primary call raises, the
orchestrator retries exactly once with only the model identifier and the
prompt (no configuration), and when that fallback call succeeds the result is
never a backend-call error (only the parse pipeline of the fallback text). -/
theorem c4_fallback (backend backend2 : Backend) (marca modelo : String) (horas : Int)
    (model_name : String) (temperature : Rat) (seed : Int) (preset : Preset)
    (objetivo : String) (e e2 : String)
    (h0 : backend 0 (app_primary_call marca modelo horas model_name temperature seed
        preset objetivo) = .error e)
    (h0' : backend2 0 (ng_primary_call marca modelo horas model_name) = .error e2) :
    (call_ai backend marca modelo horas model_name temperature seed preset objetivo).1
        = [app_primary_call marca modelo horas model_name temperature seed preset objetivo,
           app_fallback_call marca modelo horas model_name objetivo] ∧
    (∀ t, backend 1 (app_fallback_call marca modelo horas model_name objetivo) = .ok t →
        ∀ m, (call_ai backend marca modelo horas model_name temperature seed preset
          objetivo).2 ≠ .error (.backend m)) ∧
    (call_ai_ng backend2 marca modelo horas model_name).1
        = [ng_primary_call marca modelo horas model_name,
           ng_fallback_call marca modelo horas model_name] ∧
    (∀ t, backend2 1 (ng_fallback_call marca modelo horas model_name) = .ok t →
        (call_ai_ng backend2 marca modelo horas model_name).2 = json_loads (ng_normalize t)) := by
  refine ⟨?_, ?_, ?_, ?_⟩
  · simp only [call_ai, h0]
    cases h1 : backend 1 (app_fallback_call marca modelo horas model_name objetivo) <;> rfl
  · intro t ht m
    simp only [call_ai, h0, ht]
    exact parse_response_ne_backend _ m
  · simp only [call_ai_ng, h0']
    cases h1 : backend2 1 (ng_fallback_call marca modelo horas model_name) <;> rfl
  · intro t ht
    simp only [call_ai_ng, h0', ht]

/-- Witness for C4 with a double that rejects the configured call and accepts
the plain call. -/
theorem c4_fallback_witness :
    (call_ai bkRejectThenValid "John Deere" "6120M" 250 "gemini-2.0-flash" 1 123456
        ⟨none, none, none⟩ "obj").1
      = [app_primary_call "John Deere" "6120M" 250 "gemini-2.0-flash" 1 123456
          ⟨none, none, none⟩ "obj",
         app_fallback_call "John Deere" "6120M" 250 "gemini-2.0-flash" "obj"] ∧
    (∀ t, bkRejectThenValid 1 (app_fallback_call "John Deere" "6120M" 250
        "gemini-2.0-flash" "obj") = .ok t →
      ∀ m, (call_ai bkRejectThenValid "John Deere" "6120M" 250 "gemini-2.0-flash" 1 123456
        ⟨none, none, none⟩ "obj").2 ≠ .error (.backend m)) ∧
    (call_ai_ng bkRejectThenValid "John Deere" "6120M" 250 "gemini-2.0-flash").1
      = [ng_primary_call "John Deere" "6120M" 250 "gemini-2.0-flash",
         ng_fallback_call "John Deere" "6120M" 250 "gemini-2.0-flash"] ∧
    (∀ t, bkRejectThenValid 1 (ng_fallback_call "John Deere" "6120M" 250
        "gemini-2.0-flash") = .ok t →
      (call_ai_ng bkRejectThenValid "John Deere" "6120M" 250 "gemini-2.0-flash").2
        = json_loads (ng_normalize t)) :=
  c4_fallback bkRejectThenValid bkRejectThenValid "John Deere" "6120M" 250
    "gemini-2.0-flash" 1 123456 ⟨none, none, none⟩ "obj"
    "config rejected" "config rejected" rfl rfl

/-! ## Claim C5: at most two sequential backend calls -/

/-- Claim C5: for every backend behavior and every input, each revision's
`call_ai` makes at most two outbound backend calls (the recorded trace, built
strictly sequentially, has length at most two). -/
theorem c5_at_most_two_calls (backend backend2 : Backend) (marca modelo : String)
    (horas : Int) (model_name : String) (temperature : Rat) (seed : Int)
    (preset : Preset) (objetivo : String) :
    (call_ai backend marca modelo horas model_name temperature seed preset
        objetivo).1.length ≤ 2 ∧
    (call_ai_ng backend2 marca modelo horas model_name).1.length ≤ 2 := by
  constructor
  · simp only [call_ai]
    cases h0 : backend 0 (app_primary_call marca modelo horas model_name temperature seed
        preset objetivo) with
    | ok t => simp
    | error e =>
      cases h1 : backend 1 (app_fallback_call marca modelo horas model_name objetivo) <;> simp
  · simp only [call_ai_ng]
    cases h0 : backend2 0 (ng_primary_call marca modelo horas model_name) with
    | ok t => simp
    | error e =>
      cases h1 : backend2 1 (ng_fallback_call marca modelo horas model_name) <;> simp

/-! ## Claims C1 and C2: there is no repair pass in src/ -/

/-- Claim C1, counterexample: with a backend double whose first call returns
truncated JSON and whose second call would return valid JSON, `call_ai` makes
exactly one backend call — no repair generation request is ever issued — and
raises a parse error instead of returning a repaired structure. -/
theorem c1_counterexample :
    (call_ai bkTruncThenValid "John Deere" "6120M" 250 "gemini-2.0-flash" 1 123456
        ⟨none, none, none⟩ "obj").1.length = 1 ∧
    ∃ e txt, (call_ai bkTruncThenValid "John Deere" "6120M" 250 "gemini-2.0-flash" 1 123456
        ⟨none, none, none⟩ "obj").2 = .error (.parse e txt) :=
  ⟨rfl, "Expecting delimiter", "\x7b\"a\": [1, 2", rfl⟩

/-- Claim C1, amended: for every request whose primary generation call returns
text that fails strict JSON parse, the orchestrator issues no repair request
at all: the backend records exactly the single primary call and `call_ai`
raises a parse error instead of returning a repaired structure. -/
theorem c1_amended (backend : Backend) (marca modelo : String) (horas : Int)
    (model_name : String) (temperature : Rat) (seed : Int) (preset : Preset)
    (objetivo : String) (t : Option String) (m : String)
    (h0 : backend 0 (app_primary_call marca modelo horas model_name temperature seed
        preset objetivo) = .ok t)
    (hbad : json_loads (strip_code_fences t) = .error m) :
    (call_ai backend marca modelo horas model_name temperature seed preset objetivo).1
      = [app_primary_call marca modelo horas model_name temperature seed preset objetivo] ∧
    ∃ e txt, (call_ai backend marca modelo horas model_name temperature seed preset
        objetivo).2 = .error (.parse e txt) := by
  refine ⟨?_, ?_⟩
  · simp [call_ai, h0]
  · exact ⟨m, strip_code_fences t, by simp [call_ai, h0, parse_response, hbad]⟩

/-- Witness for C1 (amended) with a double returning unparseable text. -/
theorem c1_amended_witness :
    (call_ai bkAlwaysInvalid "John Deere" "6120M" 250 "gemini-2.0-flash" 1 123456
        ⟨none, none, none⟩ "obj").1
      = [app_primary_call "John Deere" "6120M" 250 "gemini-2.0-flash" 1 123456
          ⟨none, none, none⟩ "obj"] ∧
    ∃ e txt, (call_ai bkAlwaysInvalid "John Deere" "6120M" 250 "gemini-2.0-flash" 1 123456
        ⟨none, none, none⟩ "obj").2 = .error (.parse e txt) :=
  c1_amended bkAlwaysInvalid "John Deere" "6120M" 250 "gemini-2.0-flash" 1 123456
    ⟨none, none, none⟩ "obj" (some "not json at all") "Expecting value" rfl rfl

/-- Claim C2, counterexample: with a backend double that returns invalid JSON
on every call, `call_ai` makes exactly one backend call, not the two calls
(primary plus repair) the claim requires. -/
theorem c2_counterexample :
    (call_ai bkAlwaysInvalid "John Deere" "6120M" 250 "gemini-2.0-flash" 1 123456
        ⟨none, none, none⟩ "obj").1.length = 1 ∧
    (call_ai bkAlwaysInvalid "John Deere" "6120M" 250 "gemini-2.0-flash" 1 123456
        ⟨none, none, none⟩ "obj").1.length ≠ 2 := by
  have h1 : (call_ai bkAlwaysInvalid "John Deere" "6120M" 250 "gemini-2.0-flash" 1 123456
      ⟨none, none, none⟩ "obj").1.length = 1 := rfl
  exact ⟨h1, by rw [h1]; decide⟩

/-- Claim C2, amended: when the primary generation output fails strict JSON
parse, `call_ai` terminates with the `ValueError` carrying the last attempted
text and the underlying parser error, and the backend is called exactly once
(there is no repair attempt). -/
theorem c2_amended (backend : Backend) (marca modelo : String) (horas : Int)
    (model_name : String) (temperature : Rat) (seed : Int) (preset : Preset)
    (objetivo : String) (t : Option String) (m : String)
    (h0 : backend 0 (app_primary_call marca modelo horas model_name temperature seed
        preset objetivo) = .ok t)
    (hbad : json_loads (strip_code_fences t) = .error m) :
    (call_ai backend marca modelo horas model_name temperature seed preset
        objetivo).1.length = 1 ∧
    (call_ai backend marca modelo horas model_name temperature seed preset objetivo).2
      = .error (.parse m (strip_code_fences t)) := by
  refine ⟨?_, ?_⟩
  · simp [call_ai, h0]
  · simp [call_ai, h0, parse_response, hbad]

/-- Witness for C2 (amended) with a double returning truncated JSON. -/
theorem c2_amended_witness :
    (call_ai bkTruncThenValid "New Holland" "T7.230" 500 "gemini-2.0-flash" 1 99
        ⟨none, none, none⟩ "obj").1.length = 1 ∧
    (call_ai bkTruncThenValid "New Holland" "T7.230" 500 "gemini-2.0-flash" 1 99
        ⟨none, none, none⟩ "obj").2
      = .error (.parse "Expecting delimiter" (strip_code_fences (some "\x7b\"a\": [1, 2"))) :=
  c2_amended bkTruncThenValid "New Holland" "T7.230" 500 "gemini-2.0-flash" 1 99
    ⟨none, none, none⟩ "obj" (some "\x7b\"a\": [1, 2") "Expecting delimiter" rfl rfl

/-! ## Claim C9: most-recent-first history with a display cap of 20 -/

/-- Claim C9: every successful generation inserts its record at the front of
the session history (so a history whose existing records are older than the
new one stays ordered most-recent-first), and the displayed history is a
prefix of the history of length at most 20. -/
theorem c9_history (backend : Backend) (marca modelo : String) (horas : Int)
    (model_name : String) (temperature : Rat) (seed : Int) (preset : Preset)
    (preset_name objetivo : String) (history : List HistoryEntry) (now : Nat)
    (tr : List BackendCall) (d : Json) (newh : List HistoryEntry)
    (hfresh : ∀ e ∈ history, e.ts < now)
    (hsorted : history.Pairwise (fun a b => b.ts < a.ts))
    (hrun : submit_run backend marca modelo horas model_name temperature seed preset
        preset_name objetivo history now = (tr, .success d, newh)) :
    newh = mkHistoryEntry now marca modelo horas model_name temperature seed preset_name d
        :: history ∧
    newh.Pairwise (fun a b => b.ts < a.ts) ∧
    (display_history newh).length ≤ 20 ∧
    display_history newh <+: newh := by
  have hnew : newh = mkHistoryEntry now marca modelo horas model_name temperature seed
      preset_name d :: history := by
    unfold submit_run at hrun
    by_cases hval : pyStripS marca = "" ∨ pyStripS modelo = ""
    · rw [if_pos hval] at hrun
      simp at hrun
    · rw [if_neg hval] at hrun
      rcases hc : call_ai backend (pyStripS marca) (pyStripS modelo) horas
          (pyStripS model_name) temperature seed preset (pyStripS objetivo) with ⟨tr0, res⟩
      rw [hc] at hrun
      cases res with
      | ok data =>
        simp only [Prod.mk.injEq, SubmitOutcome.success.injEq] at hrun
        obtain ⟨htr, hdd, hnh⟩ := hrun
        rw [← hnh, hdd]
      | error e => simp at hrun
  refine ⟨hnew, ?_, ?_, ?_⟩
  · rw [hnew]
    refine List.pairwise_cons.mpr ⟨?_, hsorted⟩
    intro b hb
    exact hfresh b hb
  · unfold display_history
    rw [List.length_take]
    exact Nat.min_le_left _ _
  · unfold display_history
    exact List.take_prefix 20 newh

/-- Witness for C9: a concrete successful run against a valid-JSON double
starting from the empty history. -/
theorem c9_history_witness :
    [mkHistoryEntry 7 "John Deere" "6120M" 250 "gemini-2.0-flash" 1 123456
        "Equilibrado (taller)" (Json.obj [("a", Json.num 1 0)])]
      = mkHistoryEntry 7 "John Deere" "6120M" 250 "gemini-2.0-flash" 1 123456
          "Equilibrado (taller)" (Json.obj [("a", Json.num 1 0)]) :: [] ∧
    List.Pairwise (fun a b => b.ts < a.ts)
      [mkHistoryEntry 7 "John Deere" "6120M" 250 "gemini-2.0-flash" 1 123456
        "Equilibrado (taller)" (Json.obj [("a", Json.num 1 0)])] ∧
    (display_history [mkHistoryEntry 7 "John Deere" "6120M" 250 "gemini-2.0-flash" 1 123456
        "Equilibrado (taller)" (Json.obj [("a", Json.num 1 0)])]).length ≤ 20 ∧
    display_history [mkHistoryEntry 7 "John Deere" "6120M" 250 "gemini-2.0-flash" 1 123456
        "Equilibrado (taller)" (Json.obj [("a", Json.num 1 0)])]
      <+: [mkHistoryEntry 7 "John Deere" "6120M" 250 "gemini-2.0-flash" 1 123456
        "Equilibrado (taller)" (Json.obj [("a", Json.num 1 0)])] :=
  c9_history bkValid "John Deere" "6120M" 250 "gemini-2.0-flash" 1 123456
    ⟨none, none, none⟩ "Equilibrado (taller)" "obj" [] 7
    [app_primary_call (pyStripS "John Deere") (pyStripS "6120M") 250
      (pyStripS "gemini-2.0-flash") 1 123456 ⟨none, none, none⟩ (pyStripS "obj")]
    (Json.obj [("a", Json.num 1 0)])
    [mkHistoryEntry 7 "John Deere" "6120M" 250 "gemini-2.0-flash" 1 123456
      "Equilibrado (taller)" (Json.obj [("a", Json.num 1 0)])]
    (by simp) (by simp) rfl

end NiceTry
